import Mathlib

/-!
Shallow embedding of the tracing/observability core of the openai-sdk C++
repository (src/src/tracing/): the span/trace data model, ambient context with
scoped guards, the trace registry (TraceManager), and the processor pipeline.

Modelling conventions, applied uniformly:
* ISO-8601 timestamp strings produced by `current_time_iso()` are modelled as
  abstract `Nat` clock readings; world-level operations thread a monotone
  counter, and standalone operations take the sampled time as an explicit
  argument (the caller supplies the wall clock, exactly as the C++ methods
  sample it on entry).
* `nlohmann::json` export payloads are modelled as the structured records the
  export functions actually build (`SpanRecord`, `TraceRecord`); the C++
  try/catch around export never fires in the model, so exports are total.
* `std::shared_ptr<TracingProcessor>` references held by spans and the
  registry are modelled by `Option ProcessorRef` (null pointer = `none`), and
  delivery to a processor is modelled as appending the exported record to a
  submission log.
* random id generation (`generate_trace_id` / `generate_span_id`) is modelled
  by a fresh counter in the world state.
* `std::unordered_map` is modelled as an association list with unique keys;
  `operator[]` assignment is replace-or-insert, `erase` removes the entry for
  the key.
-/

namespace OpenAIAgents
namespace Tracing

/-- Ambient tracing context: the per-execution-context triple held by the
thread-local `TracingContext` map under the keys CURRENT_TRACE_ID,
CURRENT_SPAN_ID and TRACE_DISABLED.  A `none` field models the key being
absent from the map (`remove`), mirroring scope.h. -/
structure Ctx where
  current_trace_id : Option String
  current_span_id : Option String
  trace_disabled : Option Bool
deriving DecidableEq

/-- The default-constructed (empty) thread-local context. -/
def Ctx.empty : Ctx := ⟨none, none, none⟩

/-- ScopedTracingContext::is_trace_disabled: absent key means enabled. -/
def Ctx.is_trace_disabled (c : Ctx) : Bool := c.trace_disabled.getD false

/-- ScopedTracingContext::set_current_trace_id. -/
def Ctx.set_current_trace_id (c : Ctx) (id : String) : Ctx :=
  { c with current_trace_id := some id }

/-- ScopedTracingContext::reset_current_trace (removes the key). -/
def Ctx.reset_current_trace (c : Ctx) : Ctx :=
  { c with current_trace_id := none }

/-- ScopedTracingContext::set_current_span_id. -/
def Ctx.set_current_span_id (c : Ctx) (id : String) : Ctx :=
  { c with current_span_id := some id }

/-- ScopedTracingContext::reset_current_span (removes the key). -/
def Ctx.reset_current_span (c : Ctx) : Ctx :=
  { c with current_span_id := none }

/-- ScopedTracingContext::disable_tracing (sets the key to true). -/
def Ctx.disable_tracing (c : Ctx) : Ctx :=
  { c with trace_disabled := some true }

/-- ScopedTracingContext::enable_tracing (removes the key). -/
def Ctx.enable_tracing (c : Ctx) : Ctx :=
  { c with trace_disabled := none }

/-- ScopedContext: the RAII guard object of scope.h.  It stores the full
previous context (`previous_context_ = ThreadLocalContext::copy()`); its
destructor unconditionally reinstates that saved context. -/
structure ScopedContext where
  previous_context : Ctx
deriving DecidableEq

/-- The destructor of ScopedContext: `ThreadLocalContext::set_context
(previous_context_)`.  It ignores whatever the context holds at exit time. -/
def ScopedContext.exitScope (g : ScopedContext) (_current : Ctx) : Ctx :=
  g.previous_context

/-- The four guard constructors of ScopedTracingContext, with their
arguments. -/
inductive GuardSpec where
  | traceScope (trace_id : String)
  | spanScope (span_id : String)
  | disabledScope
  | traceSpanScope (trace_id : String) (span_id : String)
deriving DecidableEq

/-- Entering a scope: each create_X_scope constructs a ScopedContext, which
snapshots the full current context, and installs the modified context.
create_trace_span_scope copies the current context, sets both keys on the
copy, and installs it via ScopedContext(new_context) (scope.h). -/
def GuardSpec.enterScope : GuardSpec → Ctx → ScopedContext × Ctx
  | .traceScope id, c => (⟨c⟩, c.set_current_trace_id id)
  | .spanScope id, c => (⟨c⟩, c.set_current_span_id id)
  | .disabledScope, c => (⟨c⟩, c.disable_tracing)
  | .traceSpanScope tid sid, c =>
      (⟨c⟩, (c.set_current_trace_id tid).set_current_span_id sid)

/-- Running a body inside a scoped guard.  The body receives the installed
context and returns an `Except` outcome (normal return or raised error)
together with the context as the body left it; the guard's destructor runs on
both paths (C++ stack unwinding), reinstating the snapshot. -/
def withScope {ε α : Type} (g : GuardSpec) (body : Ctx → Except ε α × Ctx)
    (c : Ctx) : Except ε α × Ctx :=
  let entered := g.enterScope c
  let outcome := body entered.2
  (outcome.1, entered.1.exitScope outcome.2)

/-- SpanError of spans.h: a message plus an optional string-keyed data map
(the `std::any` values are modelled as the strings they export to). -/
structure SpanError where
  message : String
  data : Option (List (String × String))
deriving DecidableEq

/-- The closed set of SpanData variants of span_data.h, each carrying its
primary payload fields (json-valued fields are modelled as strings). -/
inductive SpanData where
  | agent (agent_name : String)
  | function (function_name : String) (arguments : String)
  | generation (messages : String)
  | response (response : String)
  | handoff (target : String) (message : Option String)
  | custom (name : String)
  | guardrail (guardrail_name : String) (result : Option String)
  | transcription (model : String) (transcript : Option String)
  | speech (model : String) (voice : String) (input : String)
  | speech_group (text_inputs : List String)
  | mcp_tools (server_name : String) (tools : Option (List String))
deriving DecidableEq

/-- SpanData::get_type, with the exact tag strings of span_data.h. -/
def SpanData.get_type : SpanData → String
  | .agent _ => "agent"
  | .function _ _ => "function"
  | .generation _ => "generation"
  | .response _ => "response"
  | .handoff _ _ => "handoff"
  | .custom _ => "custom"
  | .guardrail _ _ => "guardrail"
  | .transcription _ _ => "transcription"
  | .speech _ _ _ => "speech"
  | .speech_group _ => "speech_group"
  | .mcp_tools _ _ => "mcp_tools"

/-- SpanData::clone: an independent deep copy; with value semantics this is
the value itself. -/
def SpanData.clone (d : SpanData) : SpanData := d

/-- Identity of a processor instance reachable through a
`shared_ptr<TracingProcessor>`.  `noopProcessor` is the NoOpProcessor class of
processor_interface.h; `custom` stands for any other concrete processor. -/
inductive ProcessorRef where
  | noopProcessor
  | custom (id : Nat)
deriving DecidableEq

/-- The exported span record built by export_span(): trace_id, span_id,
optional parent_id, optional timestamps, the span_data payload and the
optional error. -/
structure SpanRecord where
  trace_id : String
  span_id : String
  parent_id : Option String
  started_at : Option Nat
  ended_at : Option Nat
  span_data : SpanData
  error : Option SpanError
deriving DecidableEq

/-- The mutable state of a SpanImpl<TSpanData> (spans.h). -/
structure SpanState where
  trace_id : String
  span_id : String
  parent_id : Option String
  span_data : SpanData
  started_at : Option Nat
  ended_at : Option Nat
  error : Option SpanError
  processor : Option ProcessorRef
  is_current : Bool
deriving DecidableEq

namespace SpanImpl

/-- The SpanImpl constructor: stores identity, payload and processor;
timestamps, error and is_current start out absent/false. -/
def make (trace_id span_id : String) (parent_id : Option String)
    (span_data : SpanData) (processor : Option ProcessorRef) : SpanState :=
  ⟨trace_id, span_id, parent_id, span_data, none, none, none, processor, false⟩

/-- SpanImpl::export_span: builds the exported record.  The surrounding
try/catch of spans.cpp never fires in the model, so the result is always
present. -/
def export_span (s : SpanState) : Option SpanRecord :=
  some ⟨s.trace_id, s.span_id, s.parent_id, s.started_at, s.ended_at,
        s.span_data, s.error⟩

/-- SpanImpl::start: stamps started_at with the current time; when
mark_as_current, records is_current and pushes span id then trace id into the
ambient context. -/
def start (t : Nat) (mark_as_current : Bool) (s : SpanState) (c : Ctx) :
    SpanState × Ctx :=
  let s1 := { s with started_at := some t }
  if mark_as_current then
    ( { s1 with is_current := true },
      (c.set_current_span_id s1.span_id).set_current_trace_id s1.trace_id )
  else (s1, c)

/-- SpanImpl::finish (spans.cpp lines 53-78): unconditionally stamps ended_at
with the current time, resets the ambient span/trace context when
reset_current or is_current, and, when a processor is attached, submits the
exported record (modelled as appending to the submission log).  Note the
absence of any already-finished guard. -/
def finish (t : Nat) (reset_current : Bool) (s : SpanState) (c : Ctx)
    (log : List SpanRecord) : SpanState × Ctx × List SpanRecord :=
  let s1 := { s with ended_at := some t }
  let sc :=
    if reset_current || s1.is_current then
      ({ s1 with is_current := false }, c.reset_current_span.reset_current_trace)
    else (s1, c)
  let s2 := sc.1
  let c2 := sc.2
  let log2 :=
    match s2.processor with
    | some _ =>
        match export_span s2 with
        | some record => log ++ [record]
        | none => log
    | none => log
  (s2, c2, log2)

/-- SpanImpl::set_error: overwrites any prior error. -/
def set_error (e : SpanError) (s : SpanState) : SpanState :=
  { s with error := some e }

end SpanImpl

/-- The state of a NoOpSpan<TSpanData> (spans.h): just the payload and the
is_current flag. -/
structure NoOpSpanState where
  span_data : SpanData
  is_current : Bool
deriving DecidableEq

namespace NoOpSpan

/-- NoOpSpan constructor. -/
def make (span_data : SpanData) : NoOpSpanState := ⟨span_data, false⟩

/-- NoOpSpan::get_trace_id returns the fixed string "no-op". -/
def get_trace_id (_ : NoOpSpanState) : String := "no-op"

/-- NoOpSpan::get_span_id returns the fixed string "no-op". -/
def get_span_id (_ : NoOpSpanState) : String := "no-op"

/-- NoOpSpan::start only records mark_as_current. -/
def start (mark_as_current : Bool) (s : NoOpSpanState) : NoOpSpanState :=
  { s with is_current := mark_as_current }

/-- NoOpSpan::finish only clears is_current when reset_current. -/
def finish (reset_current : Bool) (s : NoOpSpanState) : NoOpSpanState :=
  if reset_current then { s with is_current := false } else s

/-- NoOpSpan::export_span is always absent. -/
def export_span (_ : NoOpSpanState) : Option SpanRecord := none

/-- NoOpSpan::get_started_at is always absent. -/
def get_started_at (_ : NoOpSpanState) : Option Nat := none

/-- NoOpSpan::get_ended_at is always absent. -/
def get_ended_at (_ : NoOpSpanState) : Option Nat := none

/-- NoOpSpan::get_error is always absent. -/
def get_error (_ : NoOpSpanState) : Option SpanError := none

end NoOpSpan

/-- A `std::unique_ptr<Span<TSpanData>>` returned by the factory: either the
NoOp variant or a real SpanImpl. -/
inductive SpanObj where
  | noop (s : NoOpSpanState)
  | real (s : SpanState)
deriving DecidableEq

/-- Virtual dispatch of get_trace_id over the two variants. -/
def SpanObj.get_trace_id : SpanObj → String
  | .noop s => NoOpSpan.get_trace_id s
  | .real s => s.trace_id

/-- Virtual dispatch of export_span over the two variants. -/
def SpanObj.export_span : SpanObj → Option SpanRecord
  | .noop s => NoOpSpan.export_span s
  | .real s => SpanImpl.export_span s

/-- Whether the factory returned the NoOp variant. -/
def SpanObj.isNoOp : SpanObj → Bool
  | .noop _ => true
  | .real _ => false

/-- Virtual dispatch of get_ended_at. -/
def SpanObj.get_ended_at : SpanObj → Option Nat
  | .noop s => NoOpSpan.get_ended_at s
  | .real s => s.ended_at

/-- Virtual dispatch of get_error. -/
def SpanObj.get_error : SpanObj → Option SpanError
  | .noop s => NoOpSpan.get_error s
  | .real s => s.error

/-- AnySpan (spans.h lines 361-391): the type-erased record a Trace stores.
Its constructor copies identity, timestamps and error from the span and deep
clones the payload — a value snapshot with no link back to the live span. -/
structure AnySpan where
  trace_id : String
  span_id : String
  parent_id : Option String
  span_data : SpanData
  started_at : Option Nat
  ended_at : Option Nat
  error : Option SpanError
deriving DecidableEq

/-- The AnySpan templated constructor, applied to a live SpanImpl. -/
def AnySpan.ofSpan (s : SpanState) : AnySpan :=
  ⟨s.trace_id, s.span_id, s.parent_id, s.span_data.clone, s.started_at,
   s.ended_at, s.error⟩

/-- AnySpan::export_span (spans.cpp): total in the model. -/
def AnySpan.export_span (a : AnySpan) : Option SpanRecord :=
  some ⟨a.trace_id, a.span_id, a.parent_id, a.started_at, a.ended_at,
        a.span_data, a.error⟩

/-- Trace::TraceStats. -/
structure TraceStats where
  total_spans : Nat
  error_spans : Nat
  duration : Option Nat
  span_types : List (String × Nat)
deriving DecidableEq

/-- The exported trace record built by Trace::export_trace. -/
structure TraceRecord where
  trace_id : String
  started_at : Option Nat
  ended_at : Option Nat
  is_finished : Bool
  metadata : Option (List (String × String))
  spans : List SpanRecord
  stats : TraceStats
deriving DecidableEq

/-- The state of a Trace (traces.h): id, stored AnySpan snapshots, the two
timestamps, metadata and the monotone finished flag. -/
structure Trace where
  trace_id : String
  spans : List AnySpan
  started_at : Option Nat
  ended_at : Option Nat
  metadata : List (String × String)
  is_finished : Bool
deriving DecidableEq

namespace Trace

/-- The Trace constructor (traces.cpp lines 24-26): note that it stamps
started_at immediately, at construction time. -/
def create (t : Nat) (trace_id : String) : Trace :=
  ⟨trace_id, [], some t, none, [], false⟩

/-- Trace::add_span (traces.h lines 75-84): appends an AnySpan snapshot of
the given span, then sets started_at if this is the first span and
started_at is still absent. -/
def add_span (t : Nat) (tr : Trace) (s : SpanState) : Trace :=
  let spans := tr.spans ++ [AnySpan.ofSpan s]
  if spans.length == 1 && tr.started_at == none then
    { tr with spans := spans, started_at := some t }
  else
    { tr with spans := spans }

/-- Trace::finish (traces.cpp lines 69-73): the atomic exchange makes the
flag flip and the ended_at stamp happen at most once. -/
def finish (t : Nat) (tr : Trace) : Trace :=
  if tr.is_finished then tr
  else { tr with is_finished := true, ended_at := some t }

/-- Trace::get_spans. -/
def get_spans (tr : Trace) : List AnySpan := tr.spans

/-- Trace::get_span_by_id: first stored span with a matching id. -/
def get_span_by_id (tr : Trace) (span_id : String) : Option AnySpan :=
  tr.spans.find? (fun a => a.span_id == span_id)

/-- Trace::get_root_spans: stored spans with absent parent_id. -/
def get_root_spans (tr : Trace) : List AnySpan :=
  tr.spans.filter (fun a => a.parent_id == none)

/-- Trace::get_child_spans: stored spans whose parent_id matches exactly. -/
def get_child_spans (tr : Trace) (parent_span_id : String) : List AnySpan :=
  tr.spans.filter (fun a => a.parent_id == some parent_span_id)

/-- Trace::get_duration: the source returns a placeholder constant of 1000 ms
whenever both timestamps are present, and absent otherwise. -/
def get_duration (tr : Trace) : Option Nat :=
  match tr.started_at, tr.ended_at with
  | some _, some _ => some 1000
  | _, _ => none

/-- Increment the per-type counter map used by get_stats. -/
def bumpTypeCount (m : List (String × Nat)) (k : String) : List (String × Nat) :=
  match m with
  | [] => [(k, 1)]
  | (k', n) :: rest =>
      if k' == k then (k', n + 1) :: rest else (k', n) :: bumpTypeCount rest k

/-- Trace::get_stats: total span count, error span count, per-type counts and
the duration. -/
def get_stats (tr : Trace) : TraceStats :=
  { total_spans := tr.spans.length
    error_spans := (tr.spans.filter (fun a => a.error != none)).length
    duration := tr.get_duration
    span_types := tr.spans.foldl (fun m a => bumpTypeCount m a.span_data.get_type) [] }

/-- Trace::export_trace: metadata is included only when non-empty; spans that
fail to export are skipped (never happens in the model); stats appended. -/
def export_trace (tr : Trace) : Option TraceRecord :=
  some { trace_id := tr.trace_id
         started_at := tr.started_at
         ended_at := tr.ended_at
         is_finished := tr.is_finished
         metadata := if tr.metadata.isEmpty then none else some tr.metadata
         spans := tr.spans.filterMap AnySpan.export_span
         stats := tr.get_stats }

end Trace

/-- Replace-or-insert into the active-traces map, the semantics of
`active_traces_[id] = std::move(trace)` on a std::unordered_map. -/
def setActive (m : List (String × Trace)) (id : String) (tr : Trace) :
    List (String × Trace) :=
  match m with
  | [] => [(id, tr)]
  | (k, v) :: rest =>
      if k == id then (k, tr) :: rest else (k, v) :: setActive rest id tr

/-- Map lookup (`active_traces_.find`). -/
def lookupActive (m : List (String × Trace)) (id : String) : Option Trace :=
  (m.find? (fun p => p.1 == id)).map (fun p => p.2)

/-- Map erase (`active_traces_.erase(it)`); unordered_map keys are unique, so
removing every entry for the key removes exactly the found entry. -/
def eraseActive (m : List (String × Trace)) (id : String) :
    List (String × Trace) :=
  m.filter (fun p => p.1 != id)

/-- The state of a TraceManager (traces.h): the active map, the finished
list, the default processor reference, the retention cap, and the log of
trace records delivered to the default processor (our model of
`processor_->process_trace`). -/
structure TraceManager where
  active_traces : List (String × Trace)
  finished_traces : List Trace
  processor : Option ProcessorRef
  trace_log : List TraceRecord
  max_finished_traces : Nat
deriving DecidableEq

namespace TraceManager

/-- The TraceManager constructor (traces.cpp lines 179-182). -/
def make (processor : Option ProcessorRef) (max_finished_traces : Nat) :
    TraceManager :=
  ⟨[], [], processor, [], max_finished_traces⟩

/-- TraceManager::cleanup_finished_traces (traces.cpp lines 184-189): when
the finished list exceeds the cap, erase the oldest excess entries from the
front. -/
def cleanup_finished_traces (m : TraceManager) : TraceManager :=
  if m.finished_traces.length > m.max_finished_traces then
    { m with finished_traces :=
        m.finished_traces.drop (m.finished_traces.length - m.max_finished_traces) }
  else m

/-- TraceManager::create_trace (traces.cpp lines 191-199): take the explicit
id or a freshly generated one (`fresh` stands for generate_trace_id()),
construct a new Trace at the current time and install it in the active map,
replacing any existing entry for that id. -/
def create_trace (t : Nat) (fresh : String) (trace_id : Option String)
    (m : TraceManager) : String × TraceManager :=
  let id := trace_id.getD fresh
  (id, { m with active_traces := setActive m.active_traces id (Trace.create t id) })

/-- TraceManager::get_active_trace. -/
def get_active_trace (m : TraceManager) (trace_id : String) : Option Trace :=
  lookupActive m.active_traces trace_id

/-- TraceManager::get_finished_trace: first finished trace with the id. -/
def get_finished_trace (m : TraceManager) (trace_id : String) : Option Trace :=
  m.finished_traces.find? (fun tr => tr.trace_id == trace_id)

/-- TraceManager::add_span_to_trace (traces.h lines 238-245): forward to the
active trace; silently ignored when the id is unknown. -/
def add_span_to_trace (t : Nat) (m : TraceManager) (trace_id : String)
    (s : SpanState) : TraceManager :=
  match lookupActive m.active_traces trace_id with
  | some tr =>
      { m with active_traces := setActive m.active_traces trace_id (tr.add_span t s) }
  | none => m

/-- TraceManager::finish_trace (traces.cpp lines 216-240): when the id is
active, finish the trace, submit its export to the default processor when one
is set, move it from the active map to the back of the finished list, and run
cleanup.  Unknown ids are ignored. -/
def finish_trace (t : Nat) (m : TraceManager) (trace_id : String) :
    TraceManager :=
  match lookupActive m.active_traces trace_id with
  | none => m
  | some tr =>
      let tr := tr.finish t
      let log :=
        match m.processor with
        | some _ =>
            match tr.export_trace with
            | some record => m.trace_log ++ [record]
            | none => m.trace_log
        | none => m.trace_log
      cleanup_finished_traces
        { m with active_traces := eraseActive m.active_traces trace_id
                 finished_traces := m.finished_traces ++ [tr]
                 trace_log := log }

/-- TraceManager::get_active_trace_ids. -/
def get_active_trace_ids (m : TraceManager) : List String :=
  m.active_traces.map (fun p => p.1)

/-- TraceManager::get_finished_trace_ids. -/
def get_finished_trace_ids (m : TraceManager) : List String :=
  m.finished_traces.map (fun tr => tr.trace_id)

end TraceManager

/-- The world state threaded through factory-level operations: the ambient
context of the calling flow, the GlobalTraceManager instance when initialized,
the abstract clock, and the fresh-id counter standing in for the random id
generators. -/
structure World where
  ctx : Ctx
  manager : Option TraceManager
  clock : Nat
  id_counter : Nat
deriving DecidableEq

/-- A reading of current_time_iso(): returns the clock value and advances the
clock (successive readings are distinct and increasing). -/
def World.read_clock (w : World) : Nat × World :=
  (w.clock, { w with clock := w.clock + 1 })

/-- trace_utils::generate_trace_id, modelled as a fresh counter draw. -/
def World.gen_trace_id (w : World) : String × World :=
  ("trace_" ++ toString w.id_counter, { w with id_counter := w.id_counter + 1 })

/-- trace_utils::generate_span_id, modelled as a fresh counter draw. -/
def World.gen_span_id (w : World) : String × World :=
  ("span_" ++ toString w.id_counter, { w with id_counter := w.id_counter + 1 })

/-- TraceManager::start_current_trace on the initialized global manager:
create_trace, then set the ambient current trace id. -/
def World.start_current_trace (trace_id : Option String) (w : World)
    (m : TraceManager) : String × World :=
  let fw :=
    match trace_id with
    | some _ => ("", w)
    | none => w.gen_trace_id
  let tw := fw.2.read_clock
  let created := m.create_trace tw.1 fw.1 trace_id
  let id := created.1
  (id, { tw.2 with manager := some created.2
                   ctx := tw.2.ctx.set_current_trace_id id })

/-- SpanCreationOptions (create.h lines 23-31). -/
structure SpanCreationOptions where
  trace_id : Option String := none
  parent_span_id : Option String := none
  auto_start : Bool := true
  mark_as_current : Bool := false
  processor : Option ProcessorRef := none
deriving DecidableEq

namespace SpanFactory

/-- SpanFactory::resolve_trace_id (create.cpp lines 48-68): explicit option,
else the ambient current trace id, else start a new current trace on the
initialized global manager, else a freshly generated id. -/
def resolve_trace_id (opts : SpanCreationOptions) (w : World) : String × World :=
  match opts.trace_id with
  | some id => (id, w)
  | none =>
      match w.ctx.current_trace_id with
      | some id => (id, w)
      | none =>
          match w.manager with
          | some m => World.start_current_trace none w m
          | none => w.gen_trace_id

/-- SpanFactory::resolve_parent_span_id (create.cpp lines 70-76): explicit
option, else the ambient current span id. -/
def resolve_parent_span_id (opts : SpanCreationOptions) (c : Ctx) :
    Option String :=
  match opts.parent_span_id with
  | some id => some id
  | none => c.current_span_id

/-- SpanFactory::resolve_processor (create.cpp lines 78-83): explicit option,
else the factory's default processor — which may itself be null. -/
def resolve_processor (opts : SpanCreationOptions)
    (default_processor : Option ProcessorRef) : Option ProcessorRef :=
  match opts.processor with
  | some p => some p
  | none => default_processor

/-- SpanFactory::create_span_impl (create.cpp lines 8-46): resolve trace id
(which can itself create a trace), parent id and processor, generate a span
id; if the ambient context is disabled, return the NoOp variant (optionally
started); otherwise build a real SpanImpl, optionally start it, and register
it into its trace through the initialized global manager. -/
def create_span_impl (default_processor : Option ProcessorRef)
    (span_data : SpanData) (opts : SpanCreationOptions) (w : World) :
    SpanObj × World :=
  let resolved := resolve_trace_id opts w
  let trace_id := resolved.1
  let w1 := resolved.2
  let parent_span_id := resolve_parent_span_id opts w1.ctx
  let processor := resolve_processor opts default_processor
  let generated := w1.gen_span_id
  let span_id := generated.1
  let w2 := generated.2
  if w2.ctx.is_trace_disabled then
    let s0 := NoOpSpan.make span_data
    let s1 := if opts.auto_start then NoOpSpan.start opts.mark_as_current s0 else s0
    (SpanObj.noop s1, w2)
  else
    let s0 := SpanImpl.make trace_id span_id parent_span_id span_data processor
    let sw :=
      if opts.auto_start then
        let tw := w2.read_clock
        let started := SpanImpl.start tw.1 opts.mark_as_current s0 tw.2.ctx
        (started.1, { tw.2 with ctx := started.2 })
      else (s0, w2)
    let s1 := sw.1
    let w3 := sw.2
    match w3.manager with
    | some m =>
        let tw := w3.read_clock
        (SpanObj.real s1,
         { tw.2 with manager := some (m.add_span_to_trace tw.1 trace_id s1) })
    | none => (SpanObj.real s1, w3)

end SpanFactory

/-- A sub-processor registered in a CompositeProcessor: its private state and
its process method.  The method returns the state the object is left in
together with whether the call threw; a C++ object keeps its (possibly
partial) mutations even when the call raises, and the raise itself is what
the composite's try/catch swallows. -/
structure SubProcessor (ρ σ : Type) where
  state : σ
  run : ρ → σ → σ × Bool

/-- CompositeProcessor::process_span / process_trace (processor_interface.h
lines 234-253): loop over the sub-processors in registration order, invoking
each one inside try/catch so that a throw is swallowed and the loop
continues with the remaining sub-processors.  `ρ` is the record type
(span record or trace record). -/
def compositeProcess {ρ σ : Type} (record : ρ)
    (procs : List (SubProcessor ρ σ)) : List (SubProcessor ρ σ) :=
  procs.map (fun p => { p with state := (p.run record p.state).1 })

/-! Concrete states used by the claim-level checks below.  They are ordinary
runs of the model on small inputs. -/

/-- A world whose ambient context carries an active disabled scope and whose
global trace manager is initialized and empty. -/
def c3_disabled_world : World :=
  ⟨Ctx.empty.disable_tracing, some (TraceManager.make none 1000), 0, 0⟩

/-- Creating an agent span with all-default options in the disabled world. -/
def c3_result : SpanObj × World :=
  SpanFactory.create_span_impl none (SpanData.agent "a") {} c3_disabled_world

/-- A disabled-context world with no global manager. -/
def c8_disabled_world : World := ⟨Ctx.empty.disable_tracing, none, 0, 0⟩

/-- Creating a span with an explicit trace id in a disabled context. -/
def c8_result : SpanObj × World :=
  SpanFactory.create_span_impl none (SpanData.agent "a")
    { trace_id := some "t1" } c8_disabled_world

/-- A span attached to a custom processor, never started. -/
def c2_span0 : SpanState :=
  SpanImpl.make "trace_a" "span_a" none (SpanData.custom "op")
    (some (ProcessorRef.custom 0))

/-- First finish of the span, at time 1, with an empty submission log. -/
def c2_first : SpanState × Ctx × List SpanRecord :=
  SpanImpl.finish 1 false c2_span0 Ctx.empty []

/-- Second finish of the already-finished span, at time 2. -/
def c2_second : SpanState × Ctx × List SpanRecord :=
  SpanImpl.finish 2 false c2_first.1 c2_first.2.1 c2_first.2.2

/-- A manager with a default processor and a finished-trace cap of 2. -/
def c5_m0 : TraceManager := TraceManager.make (some (ProcessorRef.custom 0)) 2

/-- The manager after creating active traces a, b, c. -/
def c5_m3 : TraceManager :=
  (((c5_m0.create_trace 0 "g" (some "a")).2.create_trace 1 "g" (some "b")).2.create_trace
    2 "g" (some "c")).2

/-- The manager after finishing a, b, c in that order. -/
def c5_final : TraceManager :=
  TraceManager.finish_trace 5
    (TraceManager.finish_trace 4 (TraceManager.finish_trace 3 c5_m3 "a") "b") "c"

/-- A span record fed to the composite processor checks. -/
def c7_record : SpanRecord :=
  ⟨"trace_a", "span_a", none, none, none, SpanData.custom "x", none⟩

/-- Recording sub-processor A: appends every record it receives to its state
and then throws. -/
def c7_subA : SubProcessor SpanRecord (List SpanRecord) :=
  ⟨[], fun r s => (s ++ [r], true)⟩

/-- Recording sub-processor B: appends every record it receives to its state
and returns normally. -/
def c7_subB : SubProcessor SpanRecord (List SpanRecord) :=
  ⟨[], fun r s => (s ++ [r], false)⟩

/-- A manager holding the single active trace t1 (created at time 0). -/
def c1_m1 : TraceManager :=
  ((TraceManager.make none 1000).create_trace 0 "g" (some "t1")).2

/-- A world with an enabled empty context and the c1 manager installed. -/
def c1_w1 : World := ⟨Ctx.empty, some c1_m1, 1, 0⟩

/-- Creating a function span on trace t1; the factory registers it into the
trace via the manager. -/
def c1_creation : SpanObj × World :=
  SpanFactory.create_span_impl none (SpanData.function "f" "args")
    { trace_id := some "t1" } c1_w1

/-- The live SpanImpl state right after creation (the created span is the
real variant; the fallback branch is unreachable). -/
def c1_span1 : SpanState :=
  match c1_creation.1 with
  | SpanObj.real s => s
  | SpanObj.noop _ => SpanImpl.make "" "" none (SpanData.custom "") none

/-- The span after attaching an error. -/
def c1_span2 : SpanState := SpanImpl.set_error ⟨"boom", none⟩ c1_span1

/-- Finishing the span at time 9. -/
def c1_finished : SpanState × Ctx × List SpanRecord :=
  SpanImpl.finish 9 false c1_span2 c1_creation.2.ctx []

/-- The Trace's stored record for the span, read from the manager after
finish() (finish never touches the manager, so the manager is the one
produced at creation). -/
def c1_stored : Option AnySpan :=
  (c1_creation.2.manager.bind (fun m => m.get_active_trace "t1")).bind
    (fun tr => tr.get_span_by_id "span_0")

/-- A span created with no options processor, no factory default processor,
no ambient trace id and no global manager: every default bottoms out in its
fallback. -/
def c9_created : SpanObj × World :=
  SpanFactory.create_span_impl none (SpanData.custom "x") {} ⟨Ctx.empty, none, 0, 0⟩

/-! Helper lemmas shared by the claim-level theorems. -/

/-- Looking up a key right after replace-or-insert yields the new value. -/
theorem lookupActive_setActive_self (m : List (String × Trace)) (id : String)
    (tr : Trace) : lookupActive (setActive m id tr) id = some tr := by
  induction m with
  | nil => simp [setActive, lookupActive]
  | cons p rest ih =>
      obtain ⟨k, v⟩ := p
      cases hk : (k == id) with
      | true => simp [setActive, hk, lookupActive]
      | false =>
          have hs : setActive ((k, v) :: rest) id tr =
              (k, v) :: setActive rest id tr := by
            simp [setActive, hk]
          rw [hs]
          simp only [lookupActive, List.find?] at ih ⊢
          simp only [hk]
          exact ih

/-- Looking up a key right after erasing it finds nothing. -/
theorem lookupActive_eraseActive_self (m : List (String × Trace)) (id : String) :
    lookupActive (eraseActive m id) id = none := by
  induction m with
  | nil => rfl
  | cons p rest ih =>
      obtain ⟨k, v⟩ := p
      cases hk : (k == id) with
      | true =>
          have hs : eraseActive ((k, v) :: rest) id = eraseActive rest id := by
            simp [eraseActive, List.filter, hk, bne]
          rw [hs]
          exact ih
      | false =>
          have hs : eraseActive ((k, v) :: rest) id =
              (k, v) :: eraseActive rest id := by
            simp [eraseActive, List.filter, hk, bne]
          rw [hs]
          simp only [lookupActive, List.find?] at ih ⊢
          simp only [hk]
          exact ih

/-- cleanup_finished_traces only touches the finished list. -/
theorem cleanup_preserves_active (m : TraceManager) :
    (TraceManager.cleanup_finished_traces m).active_traces = m.active_traces := by
  unfold TraceManager.cleanup_finished_traces
  split <;> rfl

/-- After finish_trace, the id is no longer in the active map. -/
theorem finish_trace_lookup_none (t : Nat) (m : TraceManager) (id : String) :
    lookupActive (TraceManager.finish_trace t m id).active_traces id = none := by
  unfold TraceManager.finish_trace
  cases h : lookupActive m.active_traces id with
  | none => simp [h]
  | some tr =>
      simp only [h]
      rw [cleanup_preserves_active]
      exact lookupActive_eraseActive_self m.active_traces id

/-- finish_trace on an id that is not active is the identity. -/
theorem finish_trace_unknown_id (t : Nat) (m : TraceManager) (id : String)
    (h : lookupActive m.active_traces id = none) :
    TraceManager.finish_trace t m id = m := by
  unfold TraceManager.finish_trace
  simp [h]

/-- add_span never changes an already-present started_at. -/
theorem add_span_preserves_some_started_at (t t0 : Nat) (tr : Trace)
    (s : SpanState) (h : tr.started_at = some t0) :
    (Trace.add_span t tr s).started_at = some t0 := by
  simp [Trace.add_span, h]

/-- Any sequence of add_span calls on a constructed Trace keeps the
construction-time started_at. -/
theorem foldl_add_span_started_at (adds : List (Nat × SpanState)) (tr : Trace)
    (t0 : Nat) (h : tr.started_at = some t0) :
    (adds.foldl (fun acc p => Trace.add_span p.1 acc p.2) tr).started_at = some t0 := by
  induction adds generalizing tr with
  | nil => exact h
  | cons p rest ih =>
      exact ih (Trace.add_span p.1 tr p.2)
        (add_span_preserves_some_started_at p.1 t0 tr p.2 h)

/-! Claim-level theorems. -/

/-- C4 counterexample: a freshly constructed Trace has no spans yet, but its
started_at is already present (stamped by the constructor), contradicting the
claim that started_at is absent before the first add_span call. -/
theorem c4_counterexample :
    (Trace.create 0 "t1").spans = [] ∧
    (Trace.create 0 "t1").started_at = some 0 := by
  exact ⟨rfl, rfl⟩

/-- C4 (amended): Trace.started_at is set exactly once, but at construction
time, not on the first add_span: the constructor stamps it, and no sequence
of add_span calls ever changes it (the first-span branch in add_span never
fires because started_at is already present). -/
theorem c4_started_at_set_at_construction :
    (∀ (t : Nat) (id : String), (Trace.create t id).started_at = some t) ∧
    (∀ (t : Nat) (id : String) (adds : List (Nat × SpanState)),
      (adds.foldl (fun acc p => Trace.add_span p.1 acc p.2)
        (Trace.create t id)).started_at = some t) := by
  refine ⟨fun t id => rfl, fun t id adds => ?_⟩
  exact foldl_add_span_started_at adds (Trace.create t id) t rfl

/-- C10: create_trace with an id that is already active silently replaces the
existing Trace with a fresh empty one and returns the id; the finished list
and the processor submission log are untouched, so the prior Trace is
discarded without being finished, exported, or moved to the finished list. -/
theorem c10_create_trace_replaces_active (m : TraceManager) (id : String)
    (tr : Trace) (t : Nat) (fresh : String)
    (_h : lookupActive m.active_traces id = some tr) :
    (TraceManager.create_trace t fresh (some id) m).1 = id ∧
    lookupActive (TraceManager.create_trace t fresh (some id) m).2.active_traces
      id = some (Trace.create t id) ∧
    (Trace.create t id).spans = [] ∧
    (Trace.create t id).is_finished = false ∧
    (TraceManager.create_trace t fresh (some id) m).2.finished_traces =
      m.finished_traces ∧
    (TraceManager.create_trace t fresh (some id) m).2.trace_log = m.trace_log := by
  refine ⟨rfl, ?_, rfl, rfl, rfl, rfl⟩
  exact lookupActive_setActive_self m.active_traces id (Trace.create t id)

/-- C10 witness: instantiation on a one-trace manager. -/
theorem c10_witness :
    lookupActive
      (TraceManager.create_trace 7 "g"
        (some "a") ⟨[("a", Trace.create 0 "a")], [], none, [], 5⟩).2.active_traces
      "a" = some (Trace.create 7 "a") := by
  exact (c10_create_trace_replaces_active ⟨[("a", Trace.create 0 "a")], [], none, [], 5⟩
    "a" (Trace.create 0 "a") 7 "g" rfl).2.1

/-- C2 counterexample: a span with an attached processor, finished at time 1
and again at time 2: the second finish re-stamps ended_at (1 to 2) and
submits the exported record to the processor again (submission count 1 to
2), so finish is not a no-op on an already-finished span. -/
theorem c2_counterexample :
    c2_first.1.ended_at = some 1 ∧
    c2_second.1.ended_at = some 2 ∧
    c2_first.2.2.length = 1 ∧
    c2_second.2.2.length = 2 := by
  exact ⟨rfl, rfl, rfl, rfl⟩

/-- C2 (amended): SpanImpl::finish has no already-finished guard: every call,
including on a finished span, re-stamps ended_at with the time of that call
and, when a processor is attached, submits the exported record once more
(one extra submission per call); a null processor suppresses submission, the
stored error is never changed by finish, and only the NoOp variant's finish
is trivially idempotent. -/
theorem c2_finish_not_idempotent (t : Nat) (r : Bool) (s : SpanState) (c : Ctx)
    (log : List SpanRecord) :
    (SpanImpl.finish t r s c log).1.ended_at = some t ∧
    (SpanImpl.finish t r s c log).1.error = s.error ∧
    (s.processor.isSome →
      (SpanImpl.finish t r s c log).2.2.length = log.length + 1) ∧
    (s.processor = none → (SpanImpl.finish t r s c log).2.2 = log) ∧
    (∀ (r' : Bool) (ns : NoOpSpanState),
      NoOpSpan.finish r' (NoOpSpan.finish r' ns) = NoOpSpan.finish r' ns) := by
  refine ⟨?_, ?_, ?_, ?_, ?_⟩
  · simp only [SpanImpl.finish]
    split <;> rfl
  · simp only [SpanImpl.finish]
    split <;> rfl
  · intro hp
    obtain ⟨p, hps⟩ := Option.isSome_iff_exists.mp hp
    simp only [SpanImpl.finish]
    by_cases hc : (r || s.is_current) = true
    · simp [hc, SpanImpl.export_span, hps]
    · simp [hc, SpanImpl.export_span, hps]
  · intro hp
    simp only [SpanImpl.finish]
    by_cases hc : (r || s.is_current) = true
    · simp [hc, SpanImpl.export_span, hp]
    · simp [hc, SpanImpl.export_span, hp]
  · intro r' ns
    cases r' <;> simp [NoOpSpan.finish]

/-- C2 witness: the general theorem applied to the concrete twice-finished
span, discharging the processor-presence hypothesis. -/
theorem c2_witness :
    (SpanImpl.finish 2 false c2_first.1 c2_first.2.1 c2_first.2.2).2.2.length =
      c2_first.2.2.length + 1 := by
  exact (c2_finish_not_idempotent 2 false c2_first.1 c2_first.2.1
    c2_first.2.2).2.2.1 (by decide)

/-- C7: the Composite processor delivers each record to every sub-processor
in registration order, and a throw inside one sub-processor is caught and
does not prevent delivery to the others: each sub-processor's resulting state
is exactly its own run on the record, independent of which sub-processors
threw; concretely, with sub-processor A throwing on process_span,
sub-processor B still receives the record. -/
theorem c7_composite_failure_isolation :
    (∀ (σ : Type) (record : SpanRecord) (procs : List (SubProcessor SpanRecord σ)),
      (compositeProcess record procs).map SubProcessor.state =
        procs.map (fun p => (p.run record p.state).1)) ∧
    (∀ (σ : Type) (record : TraceRecord) (procs : List (SubProcessor TraceRecord σ)),
      (compositeProcess record procs).map SubProcessor.state =
        procs.map (fun p => (p.run record p.state).1)) ∧
    ((c7_subA.run c7_record c7_subA.state).2 = true ∧
      (compositeProcess c7_record [c7_subA, c7_subB]).map SubProcessor.state =
        [[c7_record], [c7_record]]) := by
  refine ⟨?_, ?_, rfl, rfl⟩
  · intro σ record procs
    simp [compositeProcess]
  · intro σ record procs
    simp [compositeProcess]

/-- C6: every scoped-context guard (trace scope, span scope, disabled scope,
trace+span scope) snapshots the full ambient triple at construction and
reinstates exactly that triple on scope exit, for every body — including
bodies that mutate the context arbitrarily and exit with a raised error —
while passing the body's outcome through; nesting is covered because a body
may itself be a withScope, and the inner guard's restoration happens before
the outer one's by construction. -/
theorem c6_scoped_guard_restores_triple :
    (∀ (g : GuardSpec) (c : Ctx), (g.enterScope c).1.previous_context = c) ∧
    (∀ (ε α : Type) (g : GuardSpec) (body : Ctx → Except ε α × Ctx) (c : Ctx),
      (withScope g body c).2 = c ∧
      (withScope g body c).1 = (body (g.enterScope c).2).1) := by
  constructor
  · intro g c
    cases g <;> rfl
  · intro ε α g body c
    constructor
    · cases g <;> rfl
    · cases g <;> rfl

/-- Trace-id resolution never changes the disabled flag of the ambient
context (it can only set the current trace id). -/
theorem resolve_trace_id_preserves_disabled (opts : SpanCreationOptions)
    (w : World) :
    (SpanFactory.resolve_trace_id opts w).2.ctx.trace_disabled =
      w.ctx.trace_disabled := by
  unfold SpanFactory.resolve_trace_id
  cases ht : opts.trace_id with
  | some id => rfl
  | none =>
      cases hc : w.ctx.current_trace_id with
      | some id => rfl
      | none =>
          cases hm : w.manager with
          | some m => rfl
          | none => rfl

/-- With an explicit trace id in the options, resolution returns it and
leaves the world untouched. -/
theorem resolve_trace_id_explicit (opts : SpanCreationOptions) (w : World)
    (T : String) (h : opts.trace_id = some T) :
    SpanFactory.resolve_trace_id opts w = (T, w) := by
  unfold SpanFactory.resolve_trace_id
  rw [h]

/-- With no explicit trace id but an ambient current trace id, resolution
returns the ambient id and leaves the world untouched. -/
theorem resolve_trace_id_current (opts : SpanCreationOptions) (w : World)
    (T : String) (h1 : opts.trace_id = none)
    (h2 : w.ctx.current_trace_id = some T) :
    SpanFactory.resolve_trace_id opts w = (T, w) := by
  unfold SpanFactory.resolve_trace_id
  rw [h1, h2]

/-- C5: finish_trace removes the id from the active map, a second
finish_trace on the same id is a no-op (the move happens exactly once), and
in the concrete run with max_finished_traces = 2, finishing a, b, c in order
submits all three exports to the default Processor and leaves exactly the
finished ids b, c — the oldest finished trace a was evicted. -/
theorem c5_finish_trace_moves_once_and_evicts (t t' : Nat) (m : TraceManager)
    (id : String) :
    lookupActive (TraceManager.finish_trace t m id).active_traces id = none ∧
    TraceManager.finish_trace t' (TraceManager.finish_trace t m id) id =
      TraceManager.finish_trace t m id ∧
    c5_final.get_finished_trace_ids = ["b", "c"] ∧
    c5_final.get_active_trace_ids = [] ∧
    c5_final.trace_log.map (fun r => r.trace_id) = ["a", "b", "c"] := by
  refine ⟨finish_trace_lookup_none t m id, ?_, rfl, rfl, rfl⟩
  exact finish_trace_unknown_id t' (TraceManager.finish_trace t m id) id
    (finish_trace_lookup_none t m id)

/-- C1 counterexample: a span registered into trace t1, then given an error
and finished at time 9: the span itself ends with ended_at = 9 and the error,
but the Trace's stored record for it still has no ended_at and no error —
the stored record was not updated to the span's final state by finish(). -/
theorem c1_counterexample :
    c1_finished.1.ended_at = some 9 ∧
    c1_finished.1.error = some ⟨"boom", none⟩ ∧
    c1_stored.map (fun a => a.ended_at) = some none ∧
    c1_stored.map (fun a => a.error) = some none := by
  exact ⟨rfl, rfl, rfl, rfl⟩

/-- C1 (amended): registering a span into a Trace stores a one-time AnySpan
snapshot taken at registration (span creation) time; SpanImpl::finish updates
only the span itself, the ambient context and its processor's submission log
— it never touches the Trace — so the stored record keeps the creation-time
state and can disagree with the finished span's ended_at and error. -/
theorem c1_trace_record_is_creation_snapshot :
    (∀ (t : Nat) (tr : Trace) (s : SpanState),
      (Trace.add_span t tr s).spans = tr.spans ++ [AnySpan.ofSpan s]) ∧
    c1_stored = some (AnySpan.ofSpan c1_span1) ∧
    c1_finished.1.ended_at ≠ (AnySpan.ofSpan c1_span1).ended_at ∧
    c1_finished.1.error ≠ (AnySpan.ofSpan c1_span1).error := by
  refine ⟨?_, rfl, by decide, by decide⟩
  intro t tr s
  simp only [Trace.add_span]
  split <;> rfl

/-- C3 counterexample: creating a span in a disabled context with an
initialized, empty trace manager does return the NoOp span, but trace-id
resolution runs before the disabled check: a fresh trace is created and
registered in the registry and becomes the ambient current trace —
contradicting the claim that no trace is created or registered. -/
theorem c3_counterexample :
    c3_result.1.isNoOp = true ∧
    c3_result.2.manager.map (fun m => m.get_active_trace_ids) =
      some ["trace_0"] ∧
    c3_result.2.ctx.current_trace_id = some "trace_0" := by
  exact ⟨rfl, rfl, rfl⟩

/-- C3 (amended): when the ambient context is disabled, the factory returns
the NoOp variant regardless of the other options, its export is absent, and
neither a processor nor a trace ever receives the span — the whole effect of
creation is trace-id resolution plus one id draw —, but trace-id resolution
itself still runs first and, when no explicit or ambient trace id exists and
the global manager is initialized, creates and registers a fresh trace; when
an explicit or ambient trace id exists, resolution leaves the world
untouched. -/
theorem c3_disabled_returns_noop (default_processor : Option ProcessorRef)
    (d : SpanData) (opts : SpanCreationOptions) (w : World)
    (h : w.ctx.is_trace_disabled = true) :
    (SpanFactory.create_span_impl default_processor d opts w).1 =
      SpanObj.noop (if opts.auto_start then
        NoOpSpan.start opts.mark_as_current (NoOpSpan.make d)
      else NoOpSpan.make d) ∧
    (SpanFactory.create_span_impl default_processor d opts w).1.export_span =
      none ∧
    (SpanFactory.create_span_impl default_processor d opts w).2 =
      ((SpanFactory.resolve_trace_id opts w).2.gen_span_id).2 ∧
    ((opts.trace_id.isSome = true ∨ w.ctx.current_trace_id.isSome = true) →
      (SpanFactory.resolve_trace_id opts w).2 = w) := by
  have hd : ((SpanFactory.resolve_trace_id opts w).2.gen_span_id).2.ctx.is_trace_disabled = true := by
    have hctx : ((SpanFactory.resolve_trace_id opts w).2.gen_span_id).2.ctx =
        (SpanFactory.resolve_trace_id opts w).2.ctx := rfl
    unfold Ctx.is_trace_disabled at h ⊢
    rw [hctx, resolve_trace_id_preserves_disabled]
    exact h
  refine ⟨?_, ?_, ?_, ?_⟩
  · simp only [SpanFactory.create_span_impl]
    rw [if_pos hd]
  · simp only [SpanFactory.create_span_impl]
    rw [if_pos hd]
    split <;> rfl
  · simp only [SpanFactory.create_span_impl]
    rw [if_pos hd]
  · intro hid
    cases hid with
    | inl hl =>
        obtain ⟨T, hT⟩ := Option.isSome_iff_exists.mp hl
        rw [resolve_trace_id_explicit opts w T hT]
    | inr hr =>
        obtain ⟨T, hT⟩ := Option.isSome_iff_exists.mp hr
        cases ht : opts.trace_id with
        | some T2 => rw [resolve_trace_id_explicit opts w T2 ht]
        | none => rw [resolve_trace_id_current opts w T ht hT]

/-- C3 witness: the amended theorem applied to the concrete disabled world
with an initialized manager. -/
theorem c3_witness :
    (SpanFactory.create_span_impl none (SpanData.agent "a") {}
      c3_disabled_world).1.export_span = none := by
  exact (c3_disabled_returns_noop none (SpanData.agent "a") {}
    c3_disabled_world rfl).2.1

/-- C8 counterexample: in a disabled ambient context, a span created with the
explicit trace id t1 reports the NoOp placeholder trace id "no-op", not t1. -/
theorem c8_counterexample :
    c8_result.1.get_trace_id = "no-op" ∧
    c8_result.1.get_trace_id ≠ "t1" := by
  refine ⟨rfl, by decide⟩

/-- C8 (amended): a span created with an explicit trace_id = T reports
trace_id = T whenever the ambient context is not disabled; in a disabled
context the factory returns the NoOp variant, which reports the fixed string
"no-op" instead. -/
theorem c8_explicit_trace_id_reported (default_processor : Option ProcessorRef)
    (d : SpanData) (opts : SpanCreationOptions) (w : World) (T : String)
    (hT : opts.trace_id = some T) :
    (w.ctx.is_trace_disabled = false →
      (SpanFactory.create_span_impl default_processor d opts w).1.get_trace_id
        = T) ∧
    (w.ctx.is_trace_disabled = true →
      (SpanFactory.create_span_impl default_processor d opts w).1.get_trace_id
        = "no-op") := by
  have hres := resolve_trace_id_explicit opts w T hT
  constructor
  · intro h
    simp only [SpanFactory.create_span_impl, hres]
    rw [if_neg (by simpa using h)]
    cases hm : w.manager with
    | some m =>
        cases ha : opts.auto_start <;> cases hmc : opts.mark_as_current <;>
          simp [ha, hmc, hm, SpanImpl.start, SpanImpl.make,
            SpanObj.get_trace_id, World.read_clock, World.gen_span_id]
    | none =>
        cases ha : opts.auto_start <;> cases hmc : opts.mark_as_current <;>
          simp [ha, hmc, hm, SpanImpl.start, SpanImpl.make,
            SpanObj.get_trace_id, World.read_clock, World.gen_span_id]
  · intro h
    simp only [SpanFactory.create_span_impl, hres]
    rw [if_pos (by simpa using h)]
    split <;> rfl

/-- C8 witness: the amended theorem applied in an enabled empty context with
an explicit trace id. -/
theorem c8_witness :
    (SpanFactory.create_span_impl none (SpanData.agent "a")
      { trace_id := some "t1" } ⟨Ctx.empty, none, 0, 0⟩).1.get_trace_id
      = "t1" := by
  exact (c8_explicit_trace_id_reported none (SpanData.agent "a")
    { trace_id := some "t1" } ⟨Ctx.empty, none, 0, 0⟩ "t1" rfl).1 rfl

/-- C9 counterexample: with no processor in the options and no factory
default, resolve_processor returns the null processor reference — not a
NoOpProcessor instance. -/
theorem c9_counterexample :
    SpanFactory.resolve_processor {} none = none ∧
    (none : Option ProcessorRef) ≠ some ProcessorRef.noopProcessor := by
  refine ⟨rfl, by decide⟩

/-- C9 (amended): span-creation resolution of defaults never fails — an
explicit trace id is used as-is, an ambient id is used next, an initialized
manager registers a fresh trace whose id is returned, and otherwise a fresh
id is generated; a span is produced even with no processor anywhere, but its
processor is then null (None), and finish() simply skips submission while
still stamping ended_at — there is no fallback to a NoOpProcessor object. -/
theorem c9_resolution_has_fallbacks :
    (∀ (opts : SpanCreationOptions), opts.processor = none →
      SpanFactory.resolve_processor opts none = none) ∧
    (∀ (t : Nat) (r : Bool) (s : SpanState) (c : Ctx) (log : List SpanRecord),
      s.processor = none →
      (SpanImpl.finish t r s c log).2.2 = log ∧
      (SpanImpl.finish t r s c log).1.ended_at = some t) ∧
    (∀ (opts : SpanCreationOptions) (w : World) (T : String),
      opts.trace_id = some T → (SpanFactory.resolve_trace_id opts w).1 = T) ∧
    (∀ (opts : SpanCreationOptions) (w : World) (T : String),
      opts.trace_id = none → w.ctx.current_trace_id = some T →
      (SpanFactory.resolve_trace_id opts w).1 = T) ∧
    (∀ (opts : SpanCreationOptions) (w : World) (m : TraceManager),
      opts.trace_id = none → w.ctx.current_trace_id = none →
      w.manager = some m →
      (SpanFactory.resolve_trace_id opts w).2.manager.isSome = true ∧
      lookupActive
        ((SpanFactory.resolve_trace_id opts w).2.manager.getD
          (TraceManager.make none 0)).active_traces
        (SpanFactory.resolve_trace_id opts w).1 =
        some (Trace.create w.clock (SpanFactory.resolve_trace_id opts w).1)) ∧
    (∀ (opts : SpanCreationOptions) (w : World),
      opts.trace_id = none → w.ctx.current_trace_id = none →
      w.manager = none →
      (SpanFactory.resolve_trace_id opts w).1 =
        "trace_" ++ toString w.id_counter) ∧
    c9_created.1 = SpanObj.real
      ⟨"trace_0", "span_1", none, SpanData.custom "x", some 0, none, none,
        none, false⟩ := by
  refine ⟨?_, ?_, ?_, ?_, ?_, ?_, rfl⟩
  · intro opts hp
    simp [SpanFactory.resolve_processor, hp]
  · intro t r s c log hp
    simp only [SpanImpl.finish]
    constructor
    · by_cases hc : (r || s.is_current) = true
      · simp [hc, SpanImpl.export_span, hp]
      · simp [hc, SpanImpl.export_span, hp]
    · by_cases hc : (r || s.is_current) = true
      · simp [hc]
      · simp [hc]
  · intro opts w T hT
    rw [resolve_trace_id_explicit opts w T hT]
  · intro opts w T h1 h2
    rw [resolve_trace_id_current opts w T h1 h2]
  · intro opts w m h1 h2 h3
    unfold SpanFactory.resolve_trace_id
    rw [h1, h2, h3]
    constructor
    · rfl
    · simp only [World.start_current_trace, World.gen_trace_id,
        World.read_clock, TraceManager.create_trace]
      exact lookupActive_setActive_self m.active_traces
        ("trace_" ++ toString w.id_counter)
        (Trace.create w.clock ("trace_" ++ toString w.id_counter))
  · intro opts w h1 h2 h3
    unfold SpanFactory.resolve_trace_id
    rw [h1, h2, h3]
    rfl

/-- C9 witness: the amended theorem applied at concrete inputs, discharging
each hypothesis. -/
theorem c9_witness :
    SpanFactory.resolve_processor {} none = none ∧
    (SpanImpl.finish 3 false
      (SpanImpl.make "t" "s" none (SpanData.custom "x") none)
      Ctx.empty []).2.2 = [] ∧
    (SpanFactory.resolve_trace_id { trace_id := some "T" }
      ⟨Ctx.empty, none, 0, 0⟩).1 = "T" ∧
    (SpanFactory.resolve_trace_id {}
      ⟨Ctx.empty, some (TraceManager.make none 3), 0, 0⟩).2.manager.isSome
      = true := by
  refine ⟨c9_resolution_has_fallbacks.1 {} rfl, ?_, ?_, ?_⟩
  · exact (c9_resolution_has_fallbacks.2.1 3 false
      (SpanImpl.make "t" "s" none (SpanData.custom "x") none)
      Ctx.empty [] rfl).1
  · exact c9_resolution_has_fallbacks.2.2.1 { trace_id := some "T" }
      ⟨Ctx.empty, none, 0, 0⟩ "T" rfl
  · exact (c9_resolution_has_fallbacks.2.2.2.2.1 {}
      ⟨Ctx.empty, some (TraceManager.make none 3), 0, 0⟩
      (TraceManager.make none 3) rfl rfl rfl).1

end Tracing
end OpenAIAgents
